import Mathlib

/-!
Shallow embedding of `src/main.py` (the RAG_LLM Flask application).

The module keeps two process-wide handles, `search_system` and
`vector_store`, plus an upload folder of PDF files.  The external
collaborators (`RAGSearch`, `FaissVectorStore`, `load_all_documents`,
PDF text extraction, `os.listdir`) are not part of this file's source;
their outcomes are supplied by an `Env` record of success flags, so a
handler is a pure function of the environment and the current state.
Each handler also returns the list of collaborator calls it made
(`Event`s), which lets theorems speak about "a rebuild was triggered"
or "the store was never invoked".
-/

namespace RagApp

/-- A FAISS vector store handle.  `contents` records which documents the
in-memory index currently covers (the store itself is external to
`main.py`; we track only what was loaded, built or added). -/
structure FaissVectorStore where
  contents : List String
deriving Repr, DecidableEq

/-- The module-level mutable state of `main.py`: the two global handles
(`search_system`, `vector_store`, both `None` at import time) and the
set of file names present in `UPLOAD_FOLDER`. -/
structure ServerState where
  search_system : Option Unit
  vector_store : Option FaissVectorStore
  files : List String
deriving Repr, DecidableEq

/-- Outcomes of the external collaborator calls made by `main.py`.
A `false` flag means the corresponding call raises an exception;
`persisted` is the document set of the FAISS index persisted on disk
(what `vector_store.load()` would load); `summarize` is the text
returned by `RAGSearch.search_and_summarize`. -/
structure Env where
  ragsearch_ok : Bool
  load_all_ok : Bool
  store_ctor_ok : Bool
  load_ok : Bool
  persisted : List String
  build_ok : Bool
  add_ok : Bool
  summarize_ok : Bool
  summarize : String → Int → String
  listdir_ok : Bool

/-- Collaborator calls a handler can make, for tracing. -/
inductive Event where
  | initAttempt
  | loadAllDocs
  | storeLoad
  | storeBuild (docs : List String)
  | storeAdd (doc : String)
  | searchCall (query : String) (top_k : Int)
deriving Repr, DecidableEq

/-- `initialize_search_system` (main.py:70-110).  Mirrors the Python
statement by statement: `search_system = RAGSearch()` is assigned first;
then `load_all_documents`, then `vector_store = FaissVectorStore(...)`;
then the inner `try: vector_store.load()` with `build_from_documents`
as the fallback (only when `docs` is non-empty); any exception is caught
at the end and turned into a `false` return value — with whatever
assignments already happened left in place.  The `hasattr` wiring of
`search_system.vector_store` (lines 98-101) has no observable effect on
the state we track and is not modelled. -/
def initialize_search_system (env : Env) (s : ServerState) :
    Bool × ServerState × List Event :=
  if !env.ragsearch_ok then
    (false, s, [Event.initAttempt])
  else
    let s1 : ServerState := { s with search_system := some () }
    if !env.load_all_ok then
      (false, s1, [Event.initAttempt, Event.loadAllDocs])
    else
      let docs := s1.files
      if !env.store_ctor_ok then
        (false, s1, [Event.initAttempt, Event.loadAllDocs])
      else
        let s2 : ServerState := { s1 with vector_store := some ⟨[]⟩ }
        if env.load_ok then
          (true, { s2 with vector_store := some ⟨env.persisted⟩ },
            [Event.initAttempt, Event.loadAllDocs, Event.storeLoad])
        else if docs.isEmpty then
          (true, s2, [Event.initAttempt, Event.loadAllDocs, Event.storeLoad])
        else if env.build_ok then
          (true, { s2 with vector_store := some ⟨docs⟩ },
            [Event.initAttempt, Event.loadAllDocs, Event.storeLoad,
              Event.storeBuild docs])
        else
          (false, s2,
            [Event.initAttempt, Event.loadAllDocs, Event.storeLoad,
              Event.storeBuild docs])

/-- Whether `initialize_search_system` returns `True` (proved equal to
its first component below). -/
def initSucceeds (env : Env) (s : ServerState) : Bool :=
  env.ragsearch_ok && env.load_all_ok && env.store_ctor_ok &&
    (env.load_ok || s.files.isEmpty || env.build_ok)

/-- Python `str.strip()`: drop whitespace from both ends. -/
def pyStrip (s : String) : String :=
  String.mk
    (((s.data.dropWhile (·.isWhitespace)).reverse.dropWhile
      (·.isWhitespace)).reverse)

/-- Lowercase a string character by character (`str.lower()`). -/
def pyLower (s : String) : String :=
  String.mk (s.data.map Char.toLower)

/-- `str.endswith(suffix)`. -/
def pyEndsWith (name suffix : String) : Bool :=
  name.data.reverse.take suffix.data.length == suffix.data.reverse

/-- Modelled from the spec: werkzeug's `secure_filename` (filename
sanitization is listed as out of scope / external).  Whitespace becomes
underscores, everything outside the ASCII-safe filename characters
(including path separators) is dropped, and leading/trailing dots and
underscores are stripped — so the result is either empty or a plain
file name, never `.`, `..` or a path. -/
def secure_filename (name : String) : String :=
  let kept := (name.data.map fun c => if c.isWhitespace then '_' else c).filter
    fun c => c.isAlphanum || c == '.' || c == '_' || c == '-'
  String.mk
    (((kept.dropWhile fun c => c == '.' || c == '_').reverse.dropWhile
      fun c => c == '.' || c == '_').reverse)

/-- `os.path.splitext` on a bare filename: split at the last dot,
except that a name whose characters before that dot are all dots
(e.g. `.pdf`, `..pdf`) has no extension. -/
def splitext (name : String) : String × String :=
  let cs := name.data
  if cs.contains '.' then
    let rev := cs.reverse
    let suffix := rev.takeWhile (· != '.')
    let base := (rev.dropWhile (· != '.')).drop 1
    if base.any (· != '.') then
      (String.mk base.reverse, String.mk ('.' :: suffix.reverse))
    else (name, "")
  else (name, "")

/-- `allowed_file` (main.py:52-54): the name contains a dot and the part
after the last dot, lowercased, is `pdf`. -/
def allowed_file (filename : String) : Bool :=
  let cs := filename.data
  cs.contains '.' &&
    pyLower (String.mk (cs.reverse.takeWhile (· != '.')).reverse) == "pdf"

/-- A non-empty all-digit character list read as a decimal number. -/
def py_digits (cs : List Char) : Option Nat :=
  if cs.isEmpty then none
  else if cs.all (·.isDigit) then
    some (cs.foldl (fun a c => a * 10 + (c.toNat - 48)) 0)
  else none

/-- Python `int(str)`: optional surrounding whitespace, an optional
sign, then decimal digits; anything else raises `ValueError` (`none`). -/
def py_int (s : String) : Option Int :=
  match (pyStrip s).data with
  | '-' :: rest => (py_digits rest).map fun n => -(n : Int)
  | '+' :: rest => (py_digits rest).map fun n => (n : Int)
  | t => (py_digits t).map fun n => (n : Int)

/-- The `top_k` computation of the `/search` handler (main.py:186-191):
the form value (default string `"5"`) parsed with `int` and clamped by
`max(1, min(20, top_k))`; a `ValueError` falls back to 5. -/
def effective_top_k (field : Option String) : Int :=
  let top_k_str := field.getD "5"
  match py_int top_k_str with
  | some n => max 1 (min 20 n)
  | none => 5

/-- The saved-as name built by the upload handler (main.py:240-246):
`secure_filename`, then the timestamp inserted before the extension. -/
def uniqueName (timestamp : String) (origName : String) : String :=
  let filename := secure_filename origName
  let se := splitext filename
  se.1 ++ "_" ++ timestamp ++ se.2

/-- `file.save(filepath)`: writing a name into the folder (overwriting
if a file of that name already exists, so the name set is unchanged). -/
def saveFile (files : List String) (name : String) : List String :=
  if name ∈ files then files else files ++ [name]

/-- `process_and_index_document` (main.py:112-162): extract text (empty
text is a failure); then, since every store in scope has
`add_documents`, a present `vector_store` receives the single document
incrementally, while a `None` store falls into the rebuild branch whose
attribute access on `None` raises — caught by the function's own
`except`, so it returns a failure.  A raising `add_documents` is also
caught there. -/
def process_and_index_document (env : Env) (extract_ok : Bool)
    (uniqueFilename : String) (s : ServerState) :
    (Bool × String) × ServerState × List Event :=
  if !extract_ok then
    ((false, "No text could be extracted from PDF"), s, [])
  else
    match s.vector_store with
    | some vs =>
        if env.add_ok then
          ((true, "Document processed and added to vector store successfully"),
            { s with vector_store := some ⟨vs.contents ++ [uniqueFilename]⟩ },
            [Event.storeAdd uniqueFilename])
        else
          ((false, "add_documents raised"), s, [Event.storeAdd uniqueFilename])
    | none =>
        ((false, "AttributeError: NoneType object has no attribute build_from_documents"),
          s, [Event.loadAllDocs])

/-- One file submitted to `/upload`: its client-supplied name, whether
PDF text extraction would yield non-empty text, and whether
`file.save` completes without raising. -/
structure UploadFile where
  name : String
  extract_ok : Bool
  save_ok : Bool
deriving Repr, DecidableEq

/-- Responses of the JSON handlers: a success message or an error with
an HTTP status code. -/
inductive ApiResp where
  | ok (msg : String)
  | err (code : Nat) (msg : String)
deriving Repr, DecidableEq

/-- Response of `/upload`: the per-file success and failure lists
(original name paired with saved-as name, resp. error message), or an
out-of-band error (`400` before the loop, `500` from the handler's
`except`). -/
inductive UploadResp where
  | err (code : Nat) (msg : String)
  | ok (uploaded : List (String × String)) (failed : List (String × String))
deriving Repr, DecidableEq

/-- The per-file loop of `upload_files` (main.py:238-274), threading the
state and the two lists.  A file with a non-empty, allowed name is
saved, processed, and on processing failure removed again; any other
file goes to the failure list untouched.  A raising `file.save` aborts
the whole loop (the handler's outer `except` takes over): the `some`
result carries the error message, with all earlier effects kept. -/
def upload_loop (env : Env) (timestamp : String) :
    List UploadFile → ServerState → List (String × String) →
    List (String × String) → List Event →
    Option String × List (String × String) × List (String × String) ×
      ServerState × List Event
  | [], s, uploaded, failed, evs => (none, uploaded, failed, s, evs)
  | f :: rest, s, uploaded, failed, evs =>
    if f.name != "" && allowed_file f.name then
      let unique := uniqueName timestamp f.name
      if !f.save_ok then
        (some "file.save raised", uploaded, failed, s, evs)
      else
        let s1 : ServerState := { s with files := saveFile s.files unique }
        let r := process_and_index_document env f.extract_ok unique s1
        if r.1.1 then
          upload_loop env timestamp rest r.2.1
            (uploaded ++ [(f.name, unique)]) failed (evs ++ r.2.2)
        else
          upload_loop env timestamp rest
            { r.2.1 with files := r.2.1.files.erase unique }
            uploaded (failed ++ [(f.name, r.1.2)]) (evs ++ r.2.2)
    else
      upload_loop env timestamp rest s uploaded
        (failed ++ [(f.name, "Invalid file type. Only PDF files are allowed.")])
        evs

/-- `upload_files` (main.py:223-294): the request is rejected up front
when no files are given or the first file's name is empty; otherwise
the loop runs, a save exception surfaces as the handler's 500, and a
non-empty success list triggers `initialize_search_system` (its result
ignored) before the JSON response. -/
def upload_files (env : Env) (timestamp : String) (files : List UploadFile)
    (s : ServerState) : UploadResp × ServerState × List Event :=
  match files with
  | [] => (UploadResp.err 400 "No files selected", s, [])
  | f0 :: _ =>
    if f0.name == "" then
      (UploadResp.err 400 "No files selected", s, [])
    else
      match upload_loop env timestamp files s [] [] [] with
      | (some emsg, _, _, s1, evs) => (UploadResp.err 500 emsg, s1, evs)
      | (none, uploaded, failed, s1, evs) =>
        if uploaded.isEmpty then
          (UploadResp.ok uploaded failed, s1, evs)
        else
          let r := initialize_search_system env s1
          (UploadResp.ok uploaded failed, r.2.1, evs ++ r.2.2)

/-- `delete_document` (main.py:321-340): sanitize the name and join it
to the upload folder.  When the name sanitizes to the empty string,
`os.path.join(UPLOAD_FOLDER, "")` is the upload folder itself, which
exists (created at import time), so `os.remove` raises
`IsADirectoryError`; the handler's own `except` converts that to an
in-band 500 — nothing changed, no rebuild.  Otherwise the sanitized
name is a plain file name: if it is stored, remove it and
re-initialize the search system (result ignored); if not, return 404
without touching anything. -/
def delete_document (env : Env) (filename : String) (s : ServerState) :
    ApiResp × ServerState × List Event :=
  let safe := secure_filename filename
  if safe == "" then
    (ApiResp.err 500 "IsADirectoryError", s, [])
  else if safe ∈ s.files then
    let s1 : ServerState := { s with files := s.files.erase safe }
    let r := initialize_search_system env s1
    (ApiResp.ok "Document deleted successfully", r.2.1, r.2.2)
  else
    (ApiResp.err 404 "Document not found", s, [])

/-- The `/search` handler's rendered result page. -/
inductive SearchResp where
  | page (query : String) (summary : String)
deriving Repr, DecidableEq

/-- `search` (main.py:174-221): strip the query and bail out on an empty
one before anything else; parse/clamp `top_k`; lazily initialize when
`search_system is None` (a failed initialization renders the error page
with whatever state initialization left behind); otherwise call
`search_and_summarize`, whose own exception is caught by the handler's
`try` and rendered as an error message. -/
def search (env : Env) (queryField top_kField : Option String)
    (s : ServerState) : SearchResp × ServerState × List Event :=
  let query := pyStrip (queryField.getD "")
  if query == "" then
    (SearchResp.page query "Please enter a valid query.", s, [])
  else
    let top_k := effective_top_k top_kField
    if s.search_system.isNone then
      let r := initialize_search_system env s
      if !r.1 then
        (SearchResp.page query
          "Search system is not initialized properly. Please check the logs.",
          r.2.1, r.2.2)
      else
        (SearchResp.page query
          (if env.summarize_ok then env.summarize query top_k
            else "An error occurred: search_and_summarize raised"),
          r.2.1, r.2.2 ++ [Event.searchCall query top_k])
    else
      (SearchResp.page query
        (if env.summarize_ok then env.summarize query top_k
          else "An error occurred: search_and_summarize raised"),
        s, [Event.searchCall query top_k])

/-- The PDF files of the upload folder as both status endpoints count
them (main.py:378, 396): `os.listdir` filtered by
`f.endswith(".pdf")` — a case-sensitive check. -/
def pdf_files (s : ServerState) : List String :=
  s.files.filter (pyEndsWith · ".pdf")

/-- Response of `/api/search-system/status`. -/
inductive StatusResp where
  | ok (status : String) (document_count : Nat) (vector_store_loaded : Bool)
  | err (code : Nat)
deriving Repr, DecidableEq

/-- `search_system_status` (main.py:371-391): the whole body is inside
`try/except`, so a raising `os.listdir` becomes an in-band 500 JSON
error. -/
def search_system_status (env : Env) (s : ServerState) : StatusResp :=
  if env.listdir_ok then
    StatusResp.ok
      (if s.search_system.isSome then "initialized" else "not_initialized")
      (pdf_files s).length s.vector_store.isSome
  else StatusResp.err 500

/-- Response of `/api/documents`. -/
inductive ListResp where
  | ok (docs : List String)
  | err (code : Nat)
deriving Repr, DecidableEq

/-- `list_documents` (main.py:296-319), with its `try/except`: a raising
`os.listdir` becomes an in-band 500.  (The size/date metadata and the
newest-first ordering are not modelled.) -/
def list_documents (env : Env) (s : ServerState) : ListResp :=
  if env.listdir_ok then ListResp.ok (pdf_files s) else ListResp.err 500

/-- Response of `/health`. -/
structure HealthResp where
  status : String
  search_ready : Bool
  document_count : Nat
deriving Repr, DecidableEq

/-- `health` (main.py:393-404): the one JSON handler with no
`try/except` of its own — a raising `os.listdir` propagates out of the
handler (to the framework), modelled as `Except.error`. -/
def health (env : Env) (s : ServerState) : Except String HealthResp :=
  if env.listdir_ok then
    Except.ok ⟨"healthy", s.search_system.isSome, (pdf_files s).length⟩
  else Except.error "OSError raised by os.listdir"

/-- `reindex_documents` (main.py:358-369): unconditional
re-initialization, reporting its boolean result. -/
def reindex_documents (env : Env) (s : ServerState) :
    ApiResp × ServerState × List Event :=
  let r := initialize_search_system env s
  if r.1 then (ApiResp.ok "Reindexing completed successfully", r.2.1, r.2.2)
  else (ApiResp.err 500 "Reindexing failed", r.2.1, r.2.2)

/-- One state-changing HTTP operation (the read-only endpoints do not
touch the state). -/
inductive Op where
  | searchOp (queryField top_kField : Option String)
  | uploadOp (timestamp : String) (files : List UploadFile)
  | deleteOp (filename : String)
  | reindexOp

/-- The state after one operation. -/
def step (env : Env) (op : Op) (s : ServerState) : ServerState :=
  match op with
  | .searchOp q k => (search env q k s).2.1
  | .uploadOp ts fs => (upload_files env ts fs s).2.1
  | .deleteOp n => (delete_document env n s).2.1
  | .reindexOp => (reindex_documents env s).2.1

/-- A whole request sequence, each request with its own collaborator
outcomes. -/
def runOps : List (Env × Op) → ServerState → ServerState
  | [], s => s
  | (env, op) :: rest, s => runOps rest (step env op s)

/-- The state at module import time: both handles `None`. -/
def initialState (files0 : List String) : ServerState :=
  ⟨none, none, files0⟩

/-- The spec's claimed handle invariant: both handles set or both
`None`. -/
def handlesAligned (s : ServerState) : Bool :=
  (s.search_system.isSome && s.vector_store.isSome) ||
  (s.search_system.isNone && s.vector_store.isNone)

/-- The direction of the handle invariant that the code does maintain:
whenever `vector_store` is set, `search_system` is set. -/
def storeImpliesSearch (s : ServerState) : Bool :=
  !s.vector_store.isSome || s.search_system.isSome

/-- Whether a trace contains a `build_from_documents` call. -/
def hasBuildEvent (evs : List Event) : Bool :=
  evs.any fun e => match e with | .storeBuild _ => true | _ => false

/-- Whether an upload response reports `orig` in its per-file failure
list. -/
def reportedFailed (r : UploadResp) (orig : String) : Bool :=
  match r with
  | .ok _ failed => failed.any (·.1 == orig)
  | .err _ _ => false

/-- Whether an upload response reports the saved-as name `saved` in its
per-file success list. -/
def reportedSuccess (r : UploadResp) (saved : String) : Bool :=
  match r with
  | .ok uploaded _ => uploaded.any (·.2 == saved)
  | .err _ _ => false

/-- An environment where every collaborator call succeeds and no
persisted FAISS index exists (`load()` raises, so the index is built
from the documents). -/
def envOK : Env :=
  ⟨true, true, true, false, [], true, true, true, fun _ _ => "summary", true⟩

/-- An environment where `load_all_documents` raises (initialization
fails after `search_system` was assigned). -/
def envBadLoadAll : Env :=
  ⟨true, false, true, false, [], true, true, true, fun _ _ => "summary", true⟩

/-- An environment where a persisted FAISS index over `a.pdf` and
`b.pdf` exists and loads successfully. -/
def envLoads : Env :=
  ⟨true, true, true, true, ["a.pdf", "b.pdf"], true, true, true,
    fun _ _ => "summary", true⟩

/-- An environment where `os.listdir` raises. -/
def envNoListdir : Env :=
  ⟨true, true, true, false, [], true, true, true, fun _ _ => "summary", false⟩

/-! ### Helper lemmas about `initialize_search_system` -/

/-- The boolean that `initialize_search_system` returns is exactly
`initSucceeds`. -/
lemma init_fst (env : Env) (s : ServerState) :
    (initialize_search_system env s).1 = initSucceeds env s := by
  cases hr : env.ragsearch_ok <;> cases hl : env.load_all_ok <;>
    cases hc : env.store_ctor_ok <;> cases ho : env.load_ok <;>
    cases hb : env.build_ok <;> cases he : s.files.isEmpty <;>
    simp [initialize_search_system, initSucceeds, hr, hl, hc, ho, hb, he]

/-- `initialize_search_system` never touches the upload folder. -/
lemma init_files (env : Env) (s : ServerState) :
    (initialize_search_system env s).2.1.files = s.files := by
  cases hr : env.ragsearch_ok <;> cases hl : env.load_all_ok <;>
    cases hc : env.store_ctor_ok <;> cases ho : env.load_ok <;>
    cases hb : env.build_ok <;> cases he : s.files.isEmpty <;>
    simp [initialize_search_system, hr, hl, hc, ho, hb, he]

/-- As soon as the `RAGSearch()` constructor succeeds,
`initialize_search_system` has assigned `search_system` — whatever
happens afterwards. -/
lemma init_search_set (env : Env) (s : ServerState)
    (h : env.ragsearch_ok = true) :
    (initialize_search_system env s).2.1.search_system = some () := by
  cases hl : env.load_all_ok <;> cases hc : env.store_ctor_ok <;>
    cases ho : env.load_ok <;> cases hb : env.build_ok <;>
    cases he : s.files.isEmpty <;>
    simp [initialize_search_system, h, hl, hc, ho, hb, he]

/-- If the `RAGSearch()` constructor raises, nothing was assigned. -/
lemma init_state_of_bad_ctor (env : Env) (s : ServerState)
    (h : env.ragsearch_ok = false) :
    (initialize_search_system env s).2.1 = s := by
  simp [initialize_search_system, h]

/-- Every call of `initialize_search_system` is visible in the trace. -/
lemma init_attempt_mem (env : Env) (s : ServerState) :
    Event.initAttempt ∈ (initialize_search_system env s).2.2 := by
  cases hr : env.ragsearch_ok <;> cases hl : env.load_all_ok <;>
    cases hc : env.store_ctor_ok <;> cases ho : env.load_ok <;>
    cases hb : env.build_ok <;> cases he : s.files.isEmpty <;>
    simp [initialize_search_system, hr, hl, hc, ho, hb, he]

/-- `initialize_search_system` calls `build_from_documents` exactly when
it gets as far as the inner `try`, loading the persisted index fails,
and the document list is non-empty. -/
lemma init_build_char (env : Env) (s : ServerState) :
    hasBuildEvent (initialize_search_system env s).2.2 =
      (env.ragsearch_ok && env.load_all_ok && env.store_ctor_ok &&
        !env.load_ok && !s.files.isEmpty) := by
  cases hr : env.ragsearch_ok <;> cases hl : env.load_all_ok <;>
    cases hc : env.store_ctor_ok <;> cases ho : env.load_ok <;>
    cases hb : env.build_ok <;> cases he : s.files.isEmpty <;>
    simp [initialize_search_system, hasBuildEvent, hr, hl, hc, ho, hb, he]

/-- When the rebuild path is taken and succeeds, the new index covers
exactly the current document set. -/
lemma init_built_contents (env : Env) (s : ServerState)
    (hr : env.ragsearch_ok = true) (hl : env.load_all_ok = true)
    (hc : env.store_ctor_ok = true) (ho : env.load_ok = false)
    (he : s.files.isEmpty = false) (hb : env.build_ok = true) :
    (initialize_search_system env s).2.1.vector_store = some ⟨s.files⟩ := by
  simp [initialize_search_system, hr, hl, hc, ho, hb, he]

/-- When the persisted index loads, the store holds the persisted
contents and no rebuild from the documents happens. -/
lemma init_loaded_contents (env : Env) (s : ServerState)
    (hr : env.ragsearch_ok = true) (hl : env.load_all_ok = true)
    (hc : env.store_ctor_ok = true) (ho : env.load_ok = true) :
    (initialize_search_system env s).2.1.vector_store = some ⟨env.persisted⟩ := by
  simp [initialize_search_system, hr, hl, hc, ho]

/-- `initialize_search_system` preserves the one-directional handle
invariant. -/
lemma init_preserves_inv (env : Env) (s : ServerState)
    (h : storeImpliesSearch s = true) :
    storeImpliesSearch (initialize_search_system env s).2.1 = true := by
  cases hr : env.ragsearch_ok <;> cases hl : env.load_all_ok <;>
    cases hc : env.store_ctor_ok <;> cases ho : env.load_ok <;>
    cases hb : env.build_ok <;> cases he : s.files.isEmpty <;>
    simp_all [initialize_search_system, storeImpliesSearch, hr, hl, hc, ho, hb, he]

/-! ### Helper lemmas about the other operations -/

/-- `process_and_index_document` does not change `search_system`, the
presence of `vector_store`, or the folder. -/
lemma process_frame (env : Env) (ex : Bool) (u : String) (s : ServerState) :
    (process_and_index_document env ex u s).2.1.search_system = s.search_system ∧
    (process_and_index_document env ex u s).2.1.vector_store.isSome =
      s.vector_store.isSome ∧
    (process_and_index_document env ex u s).2.1.files = s.files := by
  cases ex <;> cases hv : s.vector_store <;> cases ha : env.add_ok <;>
    simp [process_and_index_document, hv, ha]

/-- `storeImpliesSearch` ignores the folder component. -/
lemma inv_files (x : ServerState) (f : List String) :
    storeImpliesSearch { x with files := f } = storeImpliesSearch x := rfl

/-- The upload loop preserves the one-directional handle invariant. -/
lemma upload_loop_preserves_inv (env : Env) (ts : String) :
    ∀ (files : List UploadFile) (s : ServerState)
      (up fl : List (String × String)) (evs : List Event),
      storeImpliesSearch s = true →
      storeImpliesSearch (upload_loop env ts files s up fl evs).2.2.2.1 = true := by
  intro files
  induction files with
  | nil => intro s up fl evs h; simpa [upload_loop] using h
  | cons f rest ih =>
    intro s up fl evs h
    have h1 : storeImpliesSearch
        { s with files := saveFile s.files (uniqueName ts f.name) } = true := by
      rw [inv_files]; exact h
    have hp := process_frame env f.extract_ok (uniqueName ts f.name)
      { s with files := saveFile s.files (uniqueName ts f.name) }
    have hinv : storeImpliesSearch
        (process_and_index_document env f.extract_ok (uniqueName ts f.name)
          { s with files := saveFile s.files (uniqueName ts f.name) }).2.1 = true := by
      unfold storeImpliesSearch at h1 ⊢
      rw [hp.1, hp.2.1]; exact h1
    rw [upload_loop]
    by_cases hcond : (f.name != "" && allowed_file f.name) = true
    · rw [if_pos hcond]
      by_cases hsave : f.save_ok = true
      · rw [if_neg (by simp [hsave])]
        by_cases hs : (process_and_index_document env f.extract_ok
            (uniqueName ts f.name)
            { s with files := saveFile s.files (uniqueName ts f.name) }).1.1 = true
        · rw [if_pos hs]
          exact ih _ _ _ _ hinv
        · rw [if_neg hs]
          apply ih
          rw [inv_files]; exact hinv
      · rw [if_pos (by simp [hsave])]
        exact h
    · rw [if_neg hcond]
      exact ih _ _ _ _ h

/-- Every handler preserves the one-directional handle invariant. -/
lemma step_preserves_inv (env : Env) (op : Op) (s : ServerState)
    (h : storeImpliesSearch s = true) :
    storeImpliesSearch (step env op s) = true := by
  cases op with
  | searchOp q k =>
    simp only [step, search]
    by_cases hq : (pyStrip (q.getD "") == "") = true
    · rw [if_pos hq]; exact h
    · rw [if_neg hq]
      by_cases hs : s.search_system.isNone = true
      · rw [if_pos hs]
        by_cases hinit : (initialize_search_system env s).1 = true
        · rw [if_neg (by simp [hinit])]
          exact init_preserves_inv env s h
        · rw [if_pos (by simp [hinit])]
          exact init_preserves_inv env s h
      · rw [if_neg hs]; exact h
  | uploadOp ts fs =>
    cases fs with
    | nil => simpa [step, upload_files] using h
    | cons f0 rest =>
      simp only [step, upload_files]
      by_cases h0 : (f0.name == "") = true
      · rw [if_pos h0]; exact h
      · rw [if_neg h0]
        have hloop := upload_loop_preserves_inv env ts (f0 :: rest) s [] [] [] h
        rcases hm : upload_loop env ts (f0 :: rest) s [] [] [] with
          ⟨abort, up, fl, s1, evs⟩
        rw [hm] at hloop
        cases abort with
        | some e => simpa using hloop
        | none =>
          by_cases hup : up.isEmpty = true
          · simpa [hup] using hloop
          · simp only [if_neg hup]
            exact init_preserves_inv _ _ (by simpa using hloop)
  | deleteOp n =>
    simp only [step, delete_document]
    by_cases he : (secure_filename n == "") = true
    · rw [if_pos he]; exact h
    · rw [if_neg he]
      by_cases hc : secure_filename n ∈ s.files
      · rw [if_pos hc]
        exact init_preserves_inv _ _ (by rw [inv_files]; exact h)
      · rw [if_neg hc]; exact h
  | reindexOp =>
    simp only [step, reindex_documents]
    by_cases hinit : (initialize_search_system env s).1 = true
    · rw [if_pos hinit]; exact init_preserves_inv env s h
    · rw [if_neg hinit]; exact init_preserves_inv env s h

/-- The invariant holds along any run from the initial state. -/
lemma runOps_inv : ∀ (ops : List (Env × Op)) (s : ServerState),
    storeImpliesSearch s = true → storeImpliesSearch (runOps ops s) = true := by
  intro ops
  induction ops with
  | nil => intro s h; simpa [runOps] using h
  | cons p rest ih =>
    intro s h
    exact ih _ (step_preserves_inv p.1 p.2 s h)

/-- `delete_document` on a missing, non-degenerate (sanitized) name:
404 and the state and trace untouched. -/
lemma delete_missing (env : Env) (name : String) (s : ServerState)
    (hne : secure_filename name ≠ "")
    (h : secure_filename name ∉ s.files) :
    delete_document env name s = (ApiResp.err 404 "Document not found", s, []) := by
  simp [delete_document, h, hne]

/-- `delete_document` on a name sanitizing to the empty string: the
joined path is the upload folder, `os.remove` raises, and the handler
returns an in-band 500 with the state and trace untouched. -/
lemma delete_empty (env : Env) (name : String) (s : ServerState)
    (he : secure_filename name = "") :
    delete_document env name s = (ApiResp.err 500 "IsADirectoryError", s, []) := by
  simp [delete_document, he]

/-! ### C1 — the both-or-neither handle invariant -/

/-- C1, as stated, is false: from the uninitialized state, a search
request whose initialization fails while enumerating documents (after
`RAGSearch()` was already assigned) leaves `search_system` set and
`vector_store` `None` — a partial state. -/
theorem C1_counterexample :
    handlesAligned
      (step envBadLoadAll (Op.searchOp (some "hello") none)
        (initialState [])) = false ∧
    (step envBadLoadAll (Op.searchOp (some "hello") none)
        (initialState [])).search_system = some () ∧
    (step envBadLoadAll (Op.searchOp (some "hello") none)
        (initialState [])).vector_store = none := by
  decide

/-- C1 amended: after every sequence of operations from the initial
state, one direction of the pairing does hold — whenever `vector_store`
is set, `search_system` is set.  (The converse fails, see the
counterexample.) -/
theorem C1_store_implies_search (ops : List (Env × Op)) (files0 : List String) :
    storeImpliesSearch (runOps ops (initialState files0)) = true :=
  runOps_inv ops (initialState files0) rfl

/-! ### C2 — failed initialization: reporting and persistence -/

/-- C2, as stated, is false: after a first search whose initialization
fails during document enumeration, the failure is reported
synchronously, but the state is NOT back to both-`None` —
`search_system` is set — and the next search request does not attempt
initialization again (it calls `search_and_summarize` directly). -/
theorem C2_counterexample :
    (search envBadLoadAll (some "hello") none (initialState [])).1 =
      SearchResp.page "hello"
        "Search system is not initialized properly. Please check the logs." ∧
    (search envBadLoadAll (some "hello") none (initialState [])).2.1 ≠
      initialState [] ∧
    Event.initAttempt ∉
      (search envBadLoadAll (some "hello") none
        ((search envBadLoadAll (some "hello") none (initialState [])).2.1)).2.2 := by
  decide

/-- C2 amended: a failed initialization is reported synchronously (the
search handler renders the failure page), but the state change
persists: whenever the `RAGSearch()` constructor succeeded,
`search_system` stays assigned, so no later search request attempts
initialization again. -/
theorem C2_failure_reported_but_persists (env env2 : Env)
    (q : String) (tk q2 tk2 : Option String) (s : ServerState)
    (hq : pyStrip q ≠ "") (hs : s.search_system = none)
    (hfail : initSucceeds env s = false) :
    (search env (some q) tk s).1 =
      SearchResp.page (pyStrip q)
        "Search system is not initialized properly. Please check the logs." ∧
    (env.ragsearch_ok = true →
      (search env (some q) tk s).2.1.search_system = some () ∧
      Event.initAttempt ∉
        (search env2 q2 tk2 (search env (some q) tk s).2.1).2.2) := by
  have hfst : (initialize_search_system env s).1 = false := by
    rw [init_fst]; exact hfail
  have hmain : search env (some q) tk s =
      (SearchResp.page (pyStrip q)
        "Search system is not initialized properly. Please check the logs.",
        (initialize_search_system env s).2.1,
        (initialize_search_system env s).2.2) := by
    simp [search, hq, hs, hfst]
  refine ⟨by rw [hmain], fun hr => ⟨?_, ?_⟩⟩
  · rw [hmain]; exact init_search_set env s hr
  · rw [hmain]
    have hset := init_search_set env s hr
    simp only [search]
    by_cases hq2 : (pyStrip (q2.getD "") == "") = true
    · simp [hq2]
    · simp [hq2, hset]

/-- Witness for the amended C2 at a concrete failing environment. -/
theorem C2_witness :
    initSucceeds envBadLoadAll (initialState []) = false ∧
    (search envBadLoadAll (some "hello") none (initialState [])).1 =
      SearchResp.page "hello"
        "Search system is not initialized properly. Please check the logs." ∧
    (search envBadLoadAll (some "hello") none (initialState [])).2.1.search_system =
      some () :=
  have h := C2_failure_reported_but_persists envBadLoadAll envBadLoadAll
    "hello" none (some "x") none (initialState []) (by decide) (by decide)
    (by decide)
  ⟨by decide, by simpa using h.1, (h.2 (by decide)).1⟩

/-! ### C3 — top_k clamping -/

/-- C3: the effective `top_k` of a search request is the submitted
integer clamped to `[1, 20]`; a missing or non-numeric value yields 5;
in particular 999 behaves as 20 and 0 as 1. -/
theorem C3_top_k_clamped (str : String) (n : Int) :
    (py_int str = some n → effective_top_k (some str) = max 1 (min 20 n)) ∧
    (py_int str = none → effective_top_k (some str) = 5) ∧
    effective_top_k none = 5 ∧
    effective_top_k (some "999") = 20 ∧
    effective_top_k (some "0") = 1 := by
  refine ⟨fun h => ?_, fun h => ?_, by decide, by decide, by decide⟩
  · simp [effective_top_k, h]
  · simp [effective_top_k, h]

/-- Witness for C3 at concrete form values. -/
theorem C3_witness :
    py_int "7" = some 7 ∧ effective_top_k (some "7") = max 1 (min 20 7) ∧
    py_int "abc" = none ∧ effective_top_k (some "abc") = 5 :=
  ⟨by decide, (C3_top_k_clamped "7" 7).1 (by decide), by decide,
    (C3_top_k_clamped "abc" 0).2.1 (by decide)⟩

/-! ### Helper lemmas for uploads -/

/-- An allowed filename is non-empty (it contains a dot). -/
lemma allowed_ne_empty (n : String) (h : allowed_file n = true) :
    (n == "") = false := by
  rcases hn : n.data with _ | ⟨c, cs⟩
  · rw [allowed_file, hn] at h
    simp at h
  · have : n ≠ "" := by
      intro he
      rw [he] at hn
      simp at hn
    simpa using this

/-- `hasBuildEvent` distributes over trace concatenation. -/
lemma hasBuild_append (a b : List Event) :
    hasBuildEvent (a ++ b) = (hasBuildEvent a || hasBuildEvent b) := by
  simp [hasBuildEvent]

/-- `process_and_index_document` never calls `build_from_documents`
(with a present store it adds incrementally; with an absent one the
attribute access raises before any build). -/
lemma process_no_build (env : Env) (ex : Bool) (un : String)
    (s : ServerState) :
    hasBuildEvent (process_and_index_document env ex un s).2.2 = false := by
  cases ex <;> cases hv : s.vector_store <;> cases ha : env.add_ok <;>
    simp [process_and_index_document, hasBuildEvent, hv, ha]

/-- `process_and_index_document` never initializes the search system. -/
lemma process_no_init (env : Env) (ex : Bool) (un : String)
    (s : ServerState) :
    Event.initAttempt ∉ (process_and_index_document env ex un s).2.2 := by
  cases ex <;> cases hv : s.vector_store <;> cases ha : env.add_ok <;>
    simp [process_and_index_document, hv, ha]

/-- The per-file upload loop itself adds no build events. -/
lemma loop_no_build (env : Env) (ts : String) :
    ∀ (files : List UploadFile) (s : ServerState)
      (up fl : List (String × String)) (evs : List Event),
      hasBuildEvent (upload_loop env ts files s up fl evs).2.2.2.2 =
        hasBuildEvent evs := by
  intro files
  induction files with
  | nil => intro s up fl evs; rfl
  | cons f rest ih =>
    intro s up fl evs
    rw [upload_loop]
    by_cases hcond : (f.name != "" && allowed_file f.name) = true
    · rw [if_pos hcond]
      by_cases hsv : f.save_ok = true
      · rw [if_neg (by simp [hsv])]
        by_cases hs : (process_and_index_document env f.extract_ok
            (uniqueName ts f.name)
            { s with files := saveFile s.files (uniqueName ts f.name) }).1.1 = true
        · rw [if_pos hs, ih, hasBuild_append, process_no_build]
          simp
        · rw [if_neg hs, ih, hasBuild_append, process_no_build]
          simp
      · rw [if_pos (by simp [hsv])]
    · rw [if_neg hcond]
      exact ih _ _ _ _
/-- The per-file upload loop itself never initializes the search
system. -/
lemma loop_no_init (env : Env) (ts : String) :
    ∀ (files : List UploadFile) (s : ServerState)
      (up fl : List (String × String)) (evs : List Event),
      (Event.initAttempt ∈ (upload_loop env ts files s up fl evs).2.2.2.2 ↔
        Event.initAttempt ∈ evs) := by
  intro files
  induction files with
  | nil => intro s up fl evs; simp [upload_loop]
  | cons f rest ih =>
    intro s up fl evs
    rw [upload_loop]
    by_cases hcond : (f.name != "" && allowed_file f.name) = true
    · rw [if_pos hcond]
      by_cases hsv : f.save_ok = true
      · rw [if_neg (by simp [hsv])]
        have hni := process_no_init env f.extract_ok (uniqueName ts f.name)
          { s with files := saveFile s.files (uniqueName ts f.name) }
        by_cases hs : (process_and_index_document env f.extract_ok
            (uniqueName ts f.name)
            { s with files := saveFile s.files (uniqueName ts f.name) }).1.1 = true
        · rw [if_pos hs, ih]
          simp [List.mem_append, hni]
        · rw [if_neg hs, ih]
          simp [List.mem_append, hni]
      · rw [if_pos (by simp [hsv])]
    · rw [if_neg hcond]
      exact ih _ _ _ _

/-- A one-file upload whose file is allowed, saves, extracts and is
added to a present store: the file is saved and reported, the store
receives it incrementally, and then `initialize_search_system` runs on
the resulting state. -/
lemma upload_single_success (env : Env) (ts : String) (f : UploadFile)
    (t : ServerState) (vs : FaissVectorStore)
    (hall : allowed_file f.name = true) (hsv : f.save_ok = true)
    (hex : f.extract_ok = true) (hvs : t.vector_store = some vs)
    (hadd : env.add_ok = true) :
    upload_files env ts [f] t =
      (UploadResp.ok [(f.name, uniqueName ts f.name)] [],
        (initialize_search_system env
          { t with files := saveFile t.files (uniqueName ts f.name),
                   vector_store :=
                     some ⟨vs.contents ++ [uniqueName ts f.name]⟩ }).2.1,
        Event.storeAdd (uniqueName ts f.name) ::
          (initialize_search_system env
            { t with files := saveFile t.files (uniqueName ts f.name),
                     vector_store :=
                       some ⟨vs.contents ++ [uniqueName ts f.name]⟩ }).2.2) := by
  have hne := allowed_ne_empty f.name hall
  have hne2 : f.name ≠ "" := by simpa using hne
  simp [upload_files, upload_loop, process_and_index_document,
    hall, hsv, hex, hadd, hvs, hne, hne2]

/-! ### C4 — rebuild on mutation -/

/-- C4, as stated, is false: a successful delete re-initializes the
search system, but when a persisted FAISS index loads successfully no
`build_from_documents` call happens at all, and the resulting index
still covers the deleted document rather than the current on-disk set. -/
theorem C4_counterexample :
    (delete_document envLoads "b.pdf"
      ⟨some (), some ⟨["a.pdf", "b.pdf"]⟩, ["a.pdf", "b.pdf"]⟩).1 =
      ApiResp.ok "Document deleted successfully" ∧
    (delete_document envLoads "b.pdf"
      ⟨some (), some ⟨["a.pdf", "b.pdf"]⟩, ["a.pdf", "b.pdf"]⟩).2.1.files =
      ["a.pdf"] ∧
    hasBuildEvent (delete_document envLoads "b.pdf"
      ⟨some (), some ⟨["a.pdf", "b.pdf"]⟩, ["a.pdf", "b.pdf"]⟩).2.2 = false ∧
    (delete_document envLoads "b.pdf"
      ⟨some (), some ⟨["a.pdf", "b.pdf"]⟩, ["a.pdf", "b.pdf"]⟩).2.1.vector_store =
      some ⟨["a.pdf", "b.pdf"]⟩ := by
  decide

/-- C4 amended: every successful delete (one whose response is the
success message) and every upload request whose response reports at
least one successfully processed file trigger a full re-initialization
(`initialize_search_system` appears in the trace; uploads additionally
added each processed document to the store incrementally first); the
re-initialization calls `build_from_documents` on the current document
set exactly when it gets past the store constructor, loading the
persisted index fails and the set is non-empty — when the persisted
index loads it is used as-is, with no rebuild.  An upload aborted by a
raising save (a 500 response) performs no re-initialization at all,
even if files earlier in the request were processed successfully. -/
theorem C4_mutation_reinitializes (env : Env) (name ts : String)
    (files : List UploadFile) (s t : ServerState)
    (up fl : List (String × String))
    (hdel : (delete_document env name s).1 =
      ApiResp.ok "Document deleted successfully")
    (hok : (upload_files env ts files t).1 = UploadResp.ok up fl)
    (hne : up ≠ []) :
    (Event.initAttempt ∈ (delete_document env name s).2.2 ∧
      hasBuildEvent (delete_document env name s).2.2 =
        (env.ragsearch_ok && env.load_all_ok && env.store_ctor_ok &&
          !env.load_ok && !(s.files.erase (secure_filename name)).isEmpty) ∧
      (env.ragsearch_ok = true → env.load_all_ok = true →
        env.store_ctor_ok = true → env.load_ok = false →
        (s.files.erase (secure_filename name)).isEmpty = false →
        env.build_ok = true →
        (delete_document env name s).2.1.vector_store =
          some ⟨s.files.erase (secure_filename name)⟩)) ∧
    (Event.initAttempt ∈ (upload_files env ts files t).2.2 ∧
      hasBuildEvent (upload_files env ts files t).2.2 =
        (env.ragsearch_ok && env.load_all_ok && env.store_ctor_ok &&
          !env.load_ok && !(upload_files env ts files t).2.1.files.isEmpty)) ∧
    (∀ (files2 : List UploadFile) (msg : String),
      (upload_files env ts files2 t).1 = UploadResp.err 500 msg →
      Event.initAttempt ∉ (upload_files env ts files2 t).2.2) := by
  have hd : secure_filename name ≠ "" ∧ secure_filename name ∈ s.files := by
    by_cases he : secure_filename name = ""
    · rw [delete_empty env name s he] at hdel
      simp at hdel
    · by_cases hc : secure_filename name ∈ s.files
      · exact ⟨he, hc⟩
      · rw [delete_missing env name s he hc] at hdel
        simp at hdel
  have hdelEq : delete_document env name s =
      (ApiResp.ok "Document deleted successfully",
        (initialize_search_system env
          { s with files := s.files.erase (secure_filename name) }).2.1,
        (initialize_search_system env
          { s with files := s.files.erase (secure_filename name) }).2.2) := by
    simp [delete_document, hd.1, hd.2]
  refine ⟨⟨?_, ?_, ?_⟩, ?_, ?_⟩
  · rw [hdelEq]
    exact init_attempt_mem _ _
  · rw [hdelEq]
    exact init_build_char _ _
  · intro h1 h2 h3 h4 h5 h6
    rw [hdelEq]
    exact init_built_contents _ _ h1 h2 h3 h4 h5 h6
  · cases files with
    | nil => simp [upload_files] at hok
    | cons f0 rest =>
      by_cases h0 : (f0.name == "") = true
      · simp [upload_files, h0] at hok
      · rcases hm : upload_loop env ts (f0 :: rest) t [] [] [] with
          ⟨abort, up2, fl2, s1, evs1⟩
        cases abort with
        | some e => simp [upload_files, h0, hm] at hok
        | none =>
          by_cases hupE : up2.isEmpty = true
          · simp [upload_files, h0, hm, hupE] at hok
            exact absurd (by rw [← hok.1]; simpa using hupE) hne
          · have hEq : upload_files env ts (f0 :: rest) t =
                (UploadResp.ok up2 fl2,
                  (initialize_search_system env s1).2.1,
                  evs1 ++ (initialize_search_system env s1).2.2) := by
              simp [upload_files, h0, hm, hupE]
            have hnb : hasBuildEvent evs1 = false := by
              have hlb := loop_no_build env ts (f0 :: rest) t [] [] []
              rw [hm] at hlb
              simpa [hasBuildEvent] using hlb
            constructor
            · rw [hEq]
              exact List.mem_append_right _ (init_attempt_mem _ _)
            · rw [hEq]
              show hasBuildEvent
                  (evs1 ++ (initialize_search_system env s1).2.2) =
                (env.ragsearch_ok && env.load_all_ok && env.store_ctor_ok &&
                  !env.load_ok &&
                  !(initialize_search_system env s1).2.1.files.isEmpty)
              rw [hasBuild_append, hnb, init_build_char, init_files]
              simp
  · intro files2 msg hmsg
    cases files2 with
    | nil => simp [upload_files] at hmsg
    | cons f0 rest =>
      by_cases h0 : (f0.name == "") = true
      · simp [upload_files, h0] at hmsg
      · rcases hm : upload_loop env ts (f0 :: rest) t [] [] [] with
          ⟨abort, up2, fl2, s1, evs1⟩
        cases abort with
        | none =>
          by_cases hupE : up2.isEmpty = true <;>
            simp [upload_files, h0, hm, hupE] at hmsg
        | some e =>
          have hEv : (upload_files env ts (f0 :: rest) t).2.2 = evs1 := by
            simp [upload_files, h0, hm]
          rw [hEv]
          have hli := loop_no_init env ts (f0 :: rest) t [] [] []
          rw [hm] at hli
          simpa using hli

/-- Witness for the amended C4 at concrete inputs. -/
theorem C4_witness :
    Event.initAttempt ∈
      (delete_document envLoads "b.pdf"
        ⟨some (), some ⟨["a.pdf", "b.pdf"]⟩, ["a.pdf", "b.pdf"]⟩).2.2 ∧
    Event.initAttempt ∈ (upload_files envLoads "TS" [⟨"doc.pdf", true, true⟩]
      ⟨some (), some ⟨[]⟩, []⟩).2.2 ∧
    hasBuildEvent (upload_files envOK "TS" [⟨"doc.pdf", true, true⟩]
      ⟨some (), some ⟨[]⟩, []⟩).2.2 = true ∧
    Event.initAttempt ∉ (upload_files envOK "TS"
      [⟨"a.pdf", true, true⟩, ⟨"b.pdf", true, false⟩]
      ⟨some (), some ⟨[]⟩, []⟩).2.2 :=
  have h := C4_mutation_reinitializes envLoads "b.pdf" "TS"
    [⟨"doc.pdf", true, true⟩]
    ⟨some (), some ⟨["a.pdf", "b.pdf"]⟩, ["a.pdf", "b.pdf"]⟩
    ⟨some (), some ⟨[]⟩, []⟩ [("doc.pdf", "doc_TS.pdf")] []
    (by decide) (by decide) (by decide)
  have h2 := C4_mutation_reinitializes envOK "b.pdf" "TS"
    [⟨"doc.pdf", true, true⟩]
    ⟨some (), some ⟨["a.pdf", "b.pdf"]⟩, ["a.pdf", "b.pdf"]⟩
    ⟨some (), some ⟨[]⟩, []⟩ [("doc.pdf", "doc_TS.pdf")] []
    (by decide) (by decide) (by decide)
  ⟨h.1.1, h.2.1.1, by rw [h2.2.1.2]; decide,
    h2.2.2 [⟨"a.pdf", true, true⟩, ⟨"b.pdf", true, false⟩]
      "file.save raised" (by decide)⟩

/-! ### C5 — document count after a successful upload -/

/-- C5, as stated, is false: `allowed_file` accepts extensions
case-insensitively but both status endpoints count files with the
case-sensitive `endswith(".pdf")`, so uploading `doc.PDF` is processed
successfully yet the reported `document_count` stays the same. -/
theorem C5_counterexample :
    (upload_files envOK "TS" [⟨"doc.PDF", true, true⟩]
      ⟨some (), some ⟨[]⟩, []⟩).1 =
      UploadResp.ok [("doc.PDF", "doc_TS.PDF")] [] ∧
    search_system_status envOK ⟨some (), some ⟨[]⟩, []⟩ =
      StatusResp.ok "initialized" 0 true ∧
    search_system_status envOK
      (upload_files envOK "TS" [⟨"doc.PDF", true, true⟩]
        ⟨some (), some ⟨[]⟩, []⟩).2.1 =
      StatusResp.ok "initialized" 0 true := by
  decide

/-- C5 amended: after an upload of exactly one successfully processed
file whose saved (timestamped) name ends in lowercase `.pdf` and does
not collide with a stored file, the reported `document_count` increases
by exactly one, and — the `RAGSearch()` constructor succeeding — the
reported status is `initialized`. -/
theorem C5_count_increments (env : Env) (ts : String) (f : UploadFile)
    (s : ServerState)
    (hall : allowed_file f.name = true) (hsv : f.save_ok = true)
    (hex : f.extract_ok = true) (hvs : s.vector_store.isSome = true)
    (hadd : env.add_ok = true) (hr : env.ragsearch_ok = true)
    (hld : env.listdir_ok = true)
    (hpdf : pyEndsWith (uniqueName ts f.name) ".pdf" = true)
    (hfresh : uniqueName ts f.name ∉ s.files) :
    (pdf_files (upload_files env ts [f] s).2.1).length =
      (pdf_files s).length + 1 ∧
    search_system_status env (upload_files env ts [f] s).2.1 =
      StatusResp.ok "initialized" ((pdf_files s).length + 1)
        (upload_files env ts [f] s).2.1.vector_store.isSome := by
  obtain ⟨vs, hvs2⟩ := Option.isSome_iff_exists.mp hvs
  have hupEq := upload_single_success env ts f s vs hall hsv hex hvs2 hadd
  have hfiles : (upload_files env ts [f] s).2.1.files =
      s.files ++ [uniqueName ts f.name] := by
    rw [hupEq]
    simp only [init_files]
    simp [saveFile, hfresh]
  have hcount : (pdf_files (upload_files env ts [f] s).2.1).length =
      (pdf_files s).length + 1 := by
    simp [pdf_files, hfiles, List.filter_append, hpdf]
  refine ⟨hcount, ?_⟩
  have hsys : (upload_files env ts [f] s).2.1.search_system = some () := by
    rw [hupEq]
    exact init_search_set _ _ hr
  simp [search_system_status, hld, hsys, hcount]

/-- Witness for the amended C5 at concrete inputs. -/
theorem C5_witness :
    (pdf_files (upload_files envOK "TS" [⟨"doc.pdf", true, true⟩]
      ⟨some (), some ⟨[]⟩, ["old.pdf"]⟩).2.1).length =
      (pdf_files (⟨some (), some ⟨[]⟩, ["old.pdf"]⟩ : ServerState)).length + 1 :=
  (C5_count_increments envOK "TS" ⟨"doc.pdf", true, true⟩
    ⟨some (), some ⟨[]⟩, ["old.pdf"]⟩ (by decide) (by decide) (by decide)
    (by decide) (by decide) (by decide) (by decide) (by decide) (by decide)).1

/-! ### C6 — deleting a missing document -/

/-- C6, as stated, is false: `DELETE /api/documents/+++` sanitizes to
the empty name, whose joined path is the upload folder itself —
`os.path.exists` is true, `os.remove` raises, and the handler returns
an in-band 500, not the claimed 404 (state and collaborators are still
untouched). -/
theorem C6_counterexample :
    secure_filename "+++" = "" ∧
    secure_filename "+++" ∉ (initialState ["a.pdf"]).files ∧
    delete_document envOK "+++" (initialState ["a.pdf"]) =
      (ApiResp.err 500 "IsADirectoryError", initialState ["a.pdf"], []) := by
  decide

/-- C6 amended: a DELETE whose sanitized name is non-empty and matches
no stored file returns the 404 error with the handles, the stored
document set and the collaborator trace untouched; a name sanitizing
to the empty string instead makes `os.remove` hit the upload folder
itself and raise, which the handler converts to an in-band 500 — also
with everything untouched and no rebuild. -/
theorem C6_delete_not_found (env : Env) (name : String) (s : ServerState)
    (h : secure_filename name ∉ s.files) :
    (secure_filename name ≠ "" →
      delete_document env name s =
        (ApiResp.err 404 "Document not found", s, [])) ∧
    (secure_filename name = "" →
      delete_document env name s =
        (ApiResp.err 500 "IsADirectoryError", s, [])) :=
  ⟨fun hne => delete_missing env name s hne h,
    fun he => delete_empty env name s he⟩

/-- Witness for the amended C6 at concrete names. -/
theorem C6_witness :
    delete_document envOK "ghost.pdf" (initialState ["a.pdf"]) =
      (ApiResp.err 404 "Document not found", initialState ["a.pdf"], []) ∧
    delete_document envOK "..." (initialState ["a.pdf"]) =
      (ApiResp.err 500 "IsADirectoryError", initialState ["a.pdf"], []) :=
  ⟨(C6_delete_not_found envOK "ghost.pdf" (initialState ["a.pdf"])
      (by decide)).1 (by decide),
    (C6_delete_not_found envOK "..." (initialState ["a.pdf"])
      (by decide)).2 (by decide)⟩

/-! ### Helper lemmas about the upload loop -/

/-- A file the loop skips has a disallowed name. -/
lemma cond_false_allowed (f : UploadFile)
    (h : ¬ ((f.name != "" && allowed_file f.name) = true)) :
    allowed_file f.name = false := by
  by_cases ha : allowed_file f.name = true
  · exfalso
    apply h
    have hne := allowed_ne_empty f.name ha
    have hne2 : f.name ≠ "" := by simpa using hne
    simp [ha, hne2]
  · simpa using ha

/-- Saving keeps the folder duplicate-free. -/
lemma saveFile_nodup {l : List String} {n : String} (h : l.Nodup) :
    (saveFile l n).Nodup := by
  by_cases hn : n ∈ l
  · simpa [saveFile, hn] using h
  · rw [saveFile, if_neg hn]
    simp [List.nodup_append, h, hn]

/-- A saved name is present afterwards. -/
lemma mem_saveFile_self (l : List String) (n : String) : n ∈ saveFile l n := by
  by_cases hn : n ∈ l
  · simp [saveFile, hn]
  · rw [saveFile, if_neg hn]
    simp

/-- Saving one name does not affect membership of another. -/
lemma mem_saveFile_iff {l : List String} {n m : String} (h : m ≠ n) :
    m ∈ saveFile l n ↔ m ∈ l := by
  by_cases hn : n ∈ l
  · simp [saveFile, hn]
  · rw [saveFile, if_neg hn]
    simp [h]

/-- Whether `process_and_index_document` succeeds for a file: the text
extracts, the store handle is present, and `add_documents` does not
raise. -/
def procSucceeds (env : Env) (storePresent : Bool) (g : UploadFile) : Bool :=
  g.extract_ok && storePresent && env.add_ok

/-- Whether a submitted file is allowed and saved under the name `u`. -/
def matchesU (ts u : String) (g : UploadFile) : Bool :=
  allowed_file g.name && (uniqueName ts g.name == u)

/-- The success bit of `process_and_index_document`. -/
lemma process_fst (env : Env) (ex : Bool) (un : String) (s : ServerState) :
    (process_and_index_document env ex un s).1.1 =
      (ex && s.vector_store.isSome && env.add_ok) := by
  cases ex <;> cases hv : s.vector_store <;> cases ha : env.add_ok <;>
    simp [process_and_index_document, hv, ha]

/-- A name present after a save was present before or is the saved one. -/
lemma mem_saveFile {l : List String} {n nm : String} (h : nm ∈ saveFile l n) :
    nm ∈ l ∨ nm = n := by
  by_cases hn : n ∈ l
  · left; simpa [saveFile, hn] using h
  · rw [saveFile, if_neg hn] at h
    simpa using List.mem_append.mp h

/-- Membership after the loop's save-then-remove of the same name. -/
lemma not_mem_erase_saveFile {l : List String} {n : String} (h : l.Nodup) :
    n ∉ (saveFile l n).erase n :=
  (saveFile_nodup h).not_mem_erase

/-- With every save succeeding, the upload loop never aborts. -/
lemma loop_no_abort (env : Env) (ts : String) :
    ∀ (files : List UploadFile) (s : ServerState)
      (up fl : List (String × String)) (evs : List Event),
      (∀ g ∈ files, g.save_ok = true) →
      (upload_loop env ts files s up fl evs).1 = none := by
  intro files
  induction files with
  | nil => intro s up fl evs _; rfl
  | cons f rest ih =>
    intro s up fl evs hsv
    have hrest : ∀ g ∈ rest, g.save_ok = true :=
      fun g hg => hsv g (List.mem_cons_of_mem f hg)
    rw [upload_loop]
    by_cases hcond : (f.name != "" && allowed_file f.name) = true
    · rw [if_pos hcond,
        if_neg (by simp [hsv f (List.mem_cons_self f rest)])]
      by_cases hs : (process_and_index_document env f.extract_ok
          (uniqueName ts f.name)
          { s with files := saveFile s.files (uniqueName ts f.name) }).1.1 = true
      · rw [if_pos hs]; exact ih _ _ _ _ hrest
      · rw [if_neg hs]; exact ih _ _ _ _ hrest
    · rw [if_neg hcond]; exact ih _ _ _ _ hrest

/-- The loop only appends to the failure list. -/
lemma loop_failed_mono (env : Env) (ts : String) :
    ∀ (files : List UploadFile) (s : ServerState)
      (up fl : List (String × String)) (evs : List Event)
      (x : String × String), x ∈ fl →
      x ∈ (upload_loop env ts files s up fl evs).2.2.1 := by
  intro files
  induction files with
  | nil => intro s up fl evs x hx; simpa [upload_loop] using hx
  | cons f rest ih =>
    intro s up fl evs x hx
    rw [upload_loop]
    by_cases hcond : (f.name != "" && allowed_file f.name) = true
    · rw [if_pos hcond]
      by_cases hsv : f.save_ok = true
      · rw [if_neg (by simp [hsv])]
        by_cases hs : (process_and_index_document env f.extract_ok
            (uniqueName ts f.name)
            { s with files := saveFile s.files (uniqueName ts f.name) }).1.1 = true
        · rw [if_pos hs]; exact ih _ _ _ _ x hx
        · rw [if_neg hs]
          exact ih _ _ _ _ x (List.mem_append_left _ hx)
      · rw [if_pos (by simp [hsv])]
        exact hx
    · rw [if_neg hcond]
      exact ih _ _ _ _ x (List.mem_append_left _ hx)

/-- Every submitted file with a disallowed name gets a failure entry
(the loop not having been aborted by a raising save). -/
lemma loop_failed_mem (env : Env) (ts : String) :
    ∀ (files : List UploadFile) (s : ServerState)
      (up fl : List (String × String)) (evs : List Event),
      (∀ g ∈ files, g.save_ok = true) →
      ∀ f ∈ files, allowed_file f.name = false →
      (f.name, "Invalid file type. Only PDF files are allowed.") ∈
        (upload_loop env ts files s up fl evs).2.2.1 := by
  intro files
  induction files with
  | nil => intro s up fl evs _ f hf; simp at hf
  | cons f0 rest ih =>
    intro s up fl evs hsv f hf hall
    have hrest : ∀ g ∈ rest, g.save_ok = true :=
      fun g hg => hsv g (List.mem_cons_of_mem f0 hg)
    rw [upload_loop]
    rcases List.mem_cons.mp hf with rfl | hf'
    · rw [if_neg (by simp [hall])]
      exact loop_failed_mono env ts rest s up
        (fl ++ [(f.name, "Invalid file type. Only PDF files are allowed.")]) evs
        _ (List.mem_append_right fl (by simp))
    · by_cases hcond : (f0.name != "" && allowed_file f0.name) = true
      · rw [if_pos hcond]
        by_cases hsv0 : f0.save_ok = true
        · rw [if_neg (by simp [hsv0])]
          by_cases hs : (process_and_index_document env f0.extract_ok
              (uniqueName ts f0.name)
              { s with files := saveFile s.files (uniqueName ts f0.name) }).1.1 = true
          · rw [if_pos hs]; exact ih _ _ _ _ hrest f hf' hall
          · rw [if_neg hs]; exact ih _ _ _ _ hrest f hf' hall
        · exact absurd (hsv f0 (List.mem_cons_self f0 rest)) hsv0
      · rw [if_neg hcond]
        exact ih _ _ _ _ hrest f hf' hall

/-- Every name in the folder after the loop was there before or is the
saved-as name of an allowed submitted file. -/
lemma loop_files_closure (env : Env) (ts : String) :
    ∀ (files : List UploadFile) (s : ServerState)
      (up fl : List (String × String)) (evs : List Event),
      ∀ nm ∈ (upload_loop env ts files s up fl evs).2.2.2.1.files,
        nm ∈ s.files ∨ ∃ g ∈ files, allowed_file g.name = true ∧
          nm = uniqueName ts g.name := by
  intro files
  induction files with
  | nil => intro s up fl evs nm h; left; simpa [upload_loop] using h
  | cons f rest ih =>
    intro s up fl evs nm h
    rw [upload_loop] at h
    by_cases hcond : (f.name != "" && allowed_file f.name) = true
    · have hallow : allowed_file f.name = true := by
        cases h2 : allowed_file f.name
        · rw [h2] at hcond
          simp at hcond
        · rfl
      rw [if_pos hcond] at h
      by_cases hsv : f.save_ok = true
      · rw [if_neg (by simp [hsv])] at h
        have hfiles := (process_frame env f.extract_ok (uniqueName ts f.name)
          { s with files := saveFile s.files (uniqueName ts f.name) }).2.2
        by_cases hs : (process_and_index_document env f.extract_ok
            (uniqueName ts f.name)
            { s with files := saveFile s.files (uniqueName ts f.name) }).1.1 = true
        · rw [if_pos hs] at h
          rcases ih _ _ _ _ nm h with hmem | ⟨g, hg, hga, hgn⟩
          · rw [hfiles] at hmem
            rcases mem_saveFile hmem with h1 | h1
            · exact Or.inl h1
            · exact Or.inr ⟨f, List.mem_cons_self f rest, hallow, h1⟩
          · exact Or.inr ⟨g, List.mem_cons_of_mem f hg, hga, hgn⟩
        · rw [if_neg hs] at h
          rcases ih _ _ _ _ nm h with hmem | ⟨g, hg, hga, hgn⟩
          · have hmem2 : nm ∈ (process_and_index_document env f.extract_ok
                (uniqueName ts f.name)
                { s with files := saveFile s.files (uniqueName ts f.name) }).2.1.files :=
              List.erase_subset _ _ hmem
            rw [hfiles] at hmem2
            rcases mem_saveFile hmem2 with h1 | h1
            · exact Or.inl h1
            · exact Or.inr ⟨f, List.mem_cons_self f rest, hallow, h1⟩
          · exact Or.inr ⟨g, List.mem_cons_of_mem f hg, hga, hgn⟩
      · rw [if_pos (by simp [hsv])] at h
        exact Or.inl h
    · rw [if_neg hcond] at h
      rcases ih _ _ _ _ nm h with hmem | ⟨g, hg, hga, hgn⟩
      · exact Or.inl hmem
      · exact Or.inr ⟨g, List.mem_cons_of_mem f hg, hga, hgn⟩

/-- Per-saved-name tracking through the upload loop: provided no save
raises, the folder is duplicate-free and at most one submitted file is
allowed and saved under the name `u`, then after the loop `u` is on
disk iff the (unique) file saved as `u` was processed successfully, and
`u` appears among the success list's saved-as names iff it was there
before or that file succeeded. -/
lemma loop_unique_tracking (env : Env) (ts u : String) :
    ∀ (files : List UploadFile) (s : ServerState)
      (up fl : List (String × String)) (evs : List Event),
      (∀ g ∈ files, g.save_ok = true) →
      s.files.Nodup →
      files.countP (matchesU ts u) ≤ 1 →
      ((u ∈ (upload_loop env ts files s up fl evs).2.2.2.1.files ↔
          (match files.find? (matchesU ts u) with
            | some g => procSucceeds env s.vector_store.isSome g = true
            | none => u ∈ s.files)) ∧
        ((upload_loop env ts files s up fl evs).2.1.any (fun x => x.2 == u) =
          (up.any (fun x => x.2 == u) ||
            (match files.find? (matchesU ts u) with
              | some g => procSucceeds env s.vector_store.isSome g
              | none => false)))) := by
  intro files
  induction files with
  | nil =>
    intro s up fl evs _ _ _
    simp [upload_loop]
  | cons f rest ih =>
    intro s up fl evs hsv hnd hcnt
    have hrest : ∀ g ∈ rest, g.save_ok = true :=
      fun g hg => hsv g (List.mem_cons_of_mem f hg)
    by_cases hcond : (f.name != "" && allowed_file f.name) = true
    · have hallow : allowed_file f.name = true := by
        cases h2 : allowed_file f.name
        · rw [h2] at hcond; simp at hcond
        · rfl
      have hsv0 : f.save_ok = true := hsv f (List.mem_cons_self f rest)
      rw [upload_loop, if_pos hcond, if_neg (by simp [hsv0])]
      have hframe := process_frame env f.extract_ok (uniqueName ts f.name)
        { s with files := saveFile s.files (uniqueName ts f.name) }
      have hsucceq : (process_and_index_document env f.extract_ok
          (uniqueName ts f.name)
          { s with files := saveFile s.files (uniqueName ts f.name) }).1.1 =
          procSucceeds env s.vector_store.isSome f :=
        process_fst env f.extract_ok (uniqueName ts f.name)
          { s with files := saveFile s.files (uniqueName ts f.name) }
      by_cases hmf : matchesU ts u f = true
      · have hbeq : (uniqueName ts f.name == u) = true := by
          cases h2 : (uniqueName ts f.name == u)
          · rw [matchesU, h2] at hmf; simp at hmf
          · rfl
        have hun : uniqueName ts f.name = u := eq_of_beq hbeq
        have hfind : (f :: rest).find? (matchesU ts u) = some f :=
          List.find?_cons_of_pos rest hmf
        have hcnt0 : rest.countP (matchesU ts u) = 0 := by
          rw [List.countP_cons, if_pos hmf] at hcnt
          omega
        have hfr : rest.find? (matchesU ts u) = none := by
          rw [List.find?_eq_none]
          intro g hg
          have := List.countP_eq_zero.mp hcnt0 g hg
          simpa using this
        rw [hfind]
        by_cases hs : (process_and_index_document env f.extract_ok
            (uniqueName ts f.name)
            { s with files := saveFile s.files (uniqueName ts f.name) }).1.1 = true
        · rw [if_pos hs]
          have hps : procSucceeds env s.vector_store.isSome f = true := by
            rw [← hsucceq]; exact hs
          have hnd2 : (process_and_index_document env f.extract_ok
              (uniqueName ts f.name)
              { s with files := saveFile s.files (uniqueName ts f.name) }).2.1.files.Nodup := by
            rw [hframe.2.2]; exact saveFile_nodup hnd
          have ihh := ih (process_and_index_document env f.extract_ok
              (uniqueName ts f.name)
              { s with files := saveFile s.files (uniqueName ts f.name) }).2.1
            (up ++ [(f.name, uniqueName ts f.name)]) fl
            (evs ++ (process_and_index_document env f.extract_ok
              (uniqueName ts f.name)
              { s with files := saveFile s.files (uniqueName ts f.name) }).2.2)
            hrest hnd2 (by rw [hcnt0]; omega)
          rw [hfr] at ihh
          have hmem : u ∈ (process_and_index_document env f.extract_ok
              (uniqueName ts f.name)
              { s with files := saveFile s.files (uniqueName ts f.name) }).2.1.files := by
            rw [hframe.2.2, ← hun]
            exact mem_saveFile_self _ _
          constructor
          · rw [ihh.1]
            simp [hmem, hps]
          · rw [ihh.2]
            simp [hbeq, hps]
        · rw [if_neg hs]
          have hps : procSucceeds env s.vector_store.isSome f = false := by
            rw [← hsucceq]
            simpa using hs
          have hno : u ∉ (process_and_index_document env f.extract_ok
              (uniqueName ts f.name)
              { s with files := saveFile s.files (uniqueName ts f.name) }).2.1.files.erase
                (uniqueName ts f.name) := by
            rw [hframe.2.2, hun]
            exact not_mem_erase_saveFile hnd
          have hnd2 : ((process_and_index_document env f.extract_ok
              (uniqueName ts f.name)
              { s with files := saveFile s.files (uniqueName ts f.name) }).2.1.files.erase
                (uniqueName ts f.name)).Nodup := by
            rw [hframe.2.2]
            exact (saveFile_nodup hnd).erase _
          have ihh := ih { (process_and_index_document env f.extract_ok
              (uniqueName ts f.name)
              { s with files := saveFile s.files (uniqueName ts f.name) }).2.1 with
                files := (process_and_index_document env f.extract_ok
                  (uniqueName ts f.name)
                  { s with files := saveFile s.files (uniqueName ts f.name) }).2.1.files.erase
                    (uniqueName ts f.name) }
            up (fl ++ [(f.name, (process_and_index_document env f.extract_ok
              (uniqueName ts f.name)
              { s with files := saveFile s.files (uniqueName ts f.name) }).1.2)])
            (evs ++ (process_and_index_document env f.extract_ok
              (uniqueName ts f.name)
              { s with files := saveFile s.files (uniqueName ts f.name) }).2.2)
            hrest hnd2 (by rw [hcnt0]; omega)
          rw [hfr] at ihh
          constructor
          · rw [ihh.1]
            simp [hno, hps]
          · rw [ihh.2]
            simp [hps]
      · have hbeqf : (uniqueName ts f.name == u) = false := by
          cases h2 : (uniqueName ts f.name == u)
          · rfl
          · exfalso; exact hmf (by simp [matchesU, hallow, h2])
        have hneq : u ≠ uniqueName ts f.name := by
          intro he
          rw [he] at hbeqf
          simp at hbeqf
        have hmf2 : matchesU ts u f = false := by
          simp [matchesU, hbeqf]
        have hfind : (f :: rest).find? (matchesU ts u) = rest.find? (matchesU ts u) :=
          List.find?_cons_of_neg rest (by simp [hmf2])
        have hcnt2 : rest.countP (matchesU ts u) ≤ 1 := by
          rw [List.countP_cons, if_neg (by simp [hmf2])] at hcnt
          omega
        rw [hfind]
        by_cases hs : (process_and_index_document env f.extract_ok
            (uniqueName ts f.name)
            { s with files := saveFile s.files (uniqueName ts f.name) }).1.1 = true
        · rw [if_pos hs]
          have hnd2 : (process_and_index_document env f.extract_ok
              (uniqueName ts f.name)
              { s with files := saveFile s.files (uniqueName ts f.name) }).2.1.files.Nodup := by
            rw [hframe.2.2]; exact saveFile_nodup hnd
          have ihh := ih (process_and_index_document env f.extract_ok
              (uniqueName ts f.name)
              { s with files := saveFile s.files (uniqueName ts f.name) }).2.1
            (up ++ [(f.name, uniqueName ts f.name)]) fl
            (evs ++ (process_and_index_document env f.extract_ok
              (uniqueName ts f.name)
              { s with files := saveFile s.files (uniqueName ts f.name) }).2.2)
            hrest hnd2 hcnt2
          have hvs2 : (process_and_index_document env f.extract_ok
              (uniqueName ts f.name)
              { s with files := saveFile s.files (uniqueName ts f.name) }).2.1.vector_store.isSome =
              s.vector_store.isSome := hframe.2.1
          have hmemiff : u ∈ (process_and_index_document env f.extract_ok
              (uniqueName ts f.name)
              { s with files := saveFile s.files (uniqueName ts f.name) }).2.1.files ↔
              u ∈ s.files := by
            rw [hframe.2.2]
            exact mem_saveFile_iff hneq
          have hup2 : (up ++ [(f.name, uniqueName ts f.name)]).any (fun x => x.2 == u) =
              up.any (fun x => x.2 == u) := by
            simp [hbeqf]
          rcases hf2 : rest.find? (matchesU ts u) with _ | g
          · rw [hf2] at ihh
            exact ⟨by rw [ihh.1, hmemiff], by rw [ihh.2, hup2]⟩
          · rw [hf2] at ihh
            rw [hvs2] at ihh
            exact ⟨by rw [ihh.1], by rw [ihh.2, hup2]⟩
        · rw [if_neg hs]
          have hmemiff : u ∈ (process_and_index_document env f.extract_ok
              (uniqueName ts f.name)
              { s with files := saveFile s.files (uniqueName ts f.name) }).2.1.files.erase
                (uniqueName ts f.name) ↔ u ∈ s.files := by
            rw [List.mem_erase_of_ne hneq, hframe.2.2]
            exact mem_saveFile_iff hneq
          have hnd2 : ((process_and_index_document env f.extract_ok
              (uniqueName ts f.name)
              { s with files := saveFile s.files (uniqueName ts f.name) }).2.1.files.erase
                (uniqueName ts f.name)).Nodup := by
            rw [hframe.2.2]
            exact (saveFile_nodup hnd).erase _
          have ihh := ih { (process_and_index_document env f.extract_ok
              (uniqueName ts f.name)
              { s with files := saveFile s.files (uniqueName ts f.name) }).2.1 with
                files := (process_and_index_document env f.extract_ok
                  (uniqueName ts f.name)
                  { s with files := saveFile s.files (uniqueName ts f.name) }).2.1.files.erase
                    (uniqueName ts f.name) }
            up (fl ++ [(f.name, (process_and_index_document env f.extract_ok
              (uniqueName ts f.name)
              { s with files := saveFile s.files (uniqueName ts f.name) }).1.2)])
            (evs ++ (process_and_index_document env f.extract_ok
              (uniqueName ts f.name)
              { s with files := saveFile s.files (uniqueName ts f.name) }).2.2)
            hrest hnd2 hcnt2
          have hvs2 : (process_and_index_document env f.extract_ok
              (uniqueName ts f.name)
              { s with files := saveFile s.files (uniqueName ts f.name) }).2.1.vector_store.isSome =
              s.vector_store.isSome := hframe.2.1
          rcases hf2 : rest.find? (matchesU ts u) with _ | g
          · rw [hf2] at ihh
            exact ⟨by rw [ihh.1]; exact hmemiff, by rw [ihh.2]⟩
          · rw [hf2] at ihh
            rw [hvs2] at ihh
            exact ⟨by rw [ihh.1], by rw [ihh.2]⟩
    · have hallow := cond_false_allowed f hcond
      have hmf : matchesU ts u f = false := by simp [matchesU, hallow]
      have hfind : (f :: rest).find? (matchesU ts u) = rest.find? (matchesU ts u) :=
        List.find?_cons_of_neg rest (by simp [hmf])
      have hcnt2 : rest.countP (matchesU ts u) ≤ 1 := by
        rw [List.countP_cons, if_neg (by simp [hmf])] at hcnt
        omega
      rw [upload_loop, if_neg hcond, hfind]
      exact ih s up
        (fl ++ [(f.name, "Invalid file type. Only PDF files are allowed.")]) evs
        hrest hnd hcnt2

/-! ### C7 — disallowed extensions are rejected -/

/-- C7, as stated, is false: when the first submitted file has an empty
name, the whole request is rejected with a single 400 error, so a later
disallowed file (here `doc.txt`) is not reported in any per-file
failure list (no file is written for it, though). -/
theorem C7_counterexample :
    (upload_files envOK "TS" [⟨"", true, true⟩, ⟨"doc.txt", true, true⟩]
      (initialState [])).1 = UploadResp.err 400 "No files selected" ∧
    allowed_file "doc.txt" = false ∧
    reportedFailed (upload_files envOK "TS"
      [⟨"", true, true⟩, ⟨"doc.txt", true, true⟩] (initialState [])).1
      "doc.txt" = false ∧
    (upload_files envOK "TS" [⟨"", true, true⟩, ⟨"doc.txt", true, true⟩]
      (initialState [])).2.1 = initialState [] := by
  decide

/-- Whatever the request's outcome — including the up-front 400
rejection and a save-raising abort — every name in the upload folder
afterwards was there before or is the saved-as name of an allowed
submitted file; so no file is ever written for a disallowed one. -/
lemma upload_files_closure (env : Env) (ts : String)
    (files : List UploadFile) (s : ServerState) :
    ∀ nm ∈ (upload_files env ts files s).2.1.files,
      nm ∈ s.files ∨ ∃ g ∈ files, allowed_file g.name = true ∧
        nm = uniqueName ts g.name := by
  intro nm hn
  cases files with
  | nil =>
    left
    simpa [upload_files] using hn
  | cons f0 rest =>
    by_cases h0 : (f0.name == "") = true
    · left
      simpa [upload_files, h0] using hn
    · have hcl := loop_files_closure env ts (f0 :: rest) s [] [] []
      rcases hm : upload_loop env ts (f0 :: rest) s [] [] [] with
        ⟨abort, up, fl, s1, evs⟩
      rw [hm] at hcl
      have hfiles : (upload_files env ts (f0 :: rest) s).2.1.files = s1.files := by
        cases abort with
        | some e => simp [upload_files, h0, hm]
        | none =>
          by_cases hup : up.isEmpty = true <;>
            simp [upload_files, h0, hm, hup, init_files]
      rw [hfiles] at hn
      simpa using hcl nm (by simpa using hn)

/-- C7 amended: no file is ever written to the upload folder for a
disallowed file — unconditionally, including the wholesale-400 and
save-abort cases (every name added is the saved-as name of an allowed
file); and provided the request is not rejected wholesale (the first
file's name is non-empty) and no save raises, every submitted file
with a disallowed name is reported in the per-file failure list. -/
theorem C7_disallowed_reported (env : Env) (ts : String)
    (files : List UploadFile) (s : ServerState)
    (f : UploadFile) (hf : f ∈ files)
    (hall : allowed_file f.name = false) :
    (∀ nm ∈ (upload_files env ts files s).2.1.files,
      nm ∈ s.files ∨ ∃ g ∈ files, allowed_file g.name = true ∧
        nm = uniqueName ts g.name) ∧
    (∀ f0 rest, files = f0 :: rest → f0.name ≠ "" →
      (∀ g ∈ files, g.save_ok = true) →
      reportedFailed (upload_files env ts files s).1 f.name = true) := by
  refine ⟨upload_files_closure env ts files s, ?_⟩
  intro f0 rest hfs h0 hsave
  subst hfs
  have hnab := loop_no_abort env ts (f0 :: rest) s [] [] [] hsave
  have hfl := loop_failed_mem env ts (f0 :: rest) s [] [] [] hsave f hf hall
  rcases hm : upload_loop env ts (f0 :: rest) s [] [] [] with
    ⟨abort, up, fl, s1, evs⟩
  rw [hm] at hnab hfl
  simp only at hnab
  subst hnab
  have hresp : (upload_files env ts (f0 :: rest) s).1 = UploadResp.ok up fl := by
    by_cases hup : up.isEmpty = true <;>
      simp [upload_files, h0, hm, hup]
  rw [hresp]
  simp only [reportedFailed, List.any_eq_true]
  exact ⟨(f.name, "Invalid file type. Only PDF files are allowed."),
    by simpa using hfl, by simp⟩

/-- Witness for the amended C7 at a concrete request. -/
theorem C7_witness :
    reportedFailed (upload_files envOK "TS"
      [⟨"a.pdf", true, true⟩, ⟨"doc.txt", true, true⟩]
      (initialState [])).1 "doc.txt" = true :=
  (C7_disallowed_reported envOK "TS"
    [⟨"a.pdf", true, true⟩, ⟨"doc.txt", true, true⟩] (initialState [])
    ⟨"doc.txt", true, true⟩ (by decide) (by decide)).2
    ⟨"a.pdf", true, true⟩ [⟨"doc.txt", true, true⟩] rfl (by decide) (by decide)

/-! ### C10 — per-file upload atomicity -/

/-- C10, as stated, is false: when a later file's `file.save` raises,
the handler's outer `except` aborts the whole request with a 500 error,
so an earlier file that was saved and processed successfully stays on
disk without being reported in any success list. -/
theorem C10_counterexample :
    (upload_files envOK "TS" [⟨"a.pdf", true, true⟩, ⟨"b.pdf", true, false⟩]
      ⟨some (), some ⟨[]⟩, []⟩).2.1.files = ["a_TS.pdf"] ∧
    (upload_files envOK "TS" [⟨"a.pdf", true, true⟩, ⟨"b.pdf", true, false⟩]
      ⟨some (), some ⟨[]⟩, []⟩).1 = UploadResp.err 500 "file.save raised" ∧
    reportedSuccess (upload_files envOK "TS"
      [⟨"a.pdf", true, true⟩, ⟨"b.pdf", true, false⟩]
      ⟨some (), some ⟨[]⟩, []⟩).1 "a_TS.pdf" = false := by
  decide

/-- C10 amended: provided no `file.save` raises (so the request runs to
completion), the folder is duplicate-free, the saved-as name `u` is
fresh, and at most one submitted file is allowed and saved as `u`, then
after the request `u` is in the upload folder iff `u` appears among the
saved-as names of the response's success list — in particular a file
whose processing fails after the save (no text extracted, store absent
or raising) is removed from disk again. -/
theorem C10_saved_iff_reported (env : Env) (ts u : String) (f0 : UploadFile)
    (rest : List UploadFile) (s : ServerState)
    (h0 : f0.name ≠ "")
    (hsave : ∀ g ∈ f0 :: rest, g.save_ok = true)
    (hnd : s.files.Nodup) (hfresh : u ∉ s.files)
    (hcnt : (f0 :: rest).countP (matchesU ts u) ≤ 1) :
    (u ∈ (upload_files env ts (f0 :: rest) s).2.1.files ↔
      reportedSuccess (upload_files env ts (f0 :: rest) s).1 u = true) := by
  have hnab := loop_no_abort env ts (f0 :: rest) s [] [] [] hsave
  have htr := loop_unique_tracking env ts u (f0 :: rest) s [] [] [] hsave hnd hcnt
  rcases hm : upload_loop env ts (f0 :: rest) s [] [] [] with
    ⟨abort, up, fl, s1, evs⟩
  rw [hm] at hnab htr
  simp only at hnab
  subst hnab
  have hresp : (upload_files env ts (f0 :: rest) s).1 = UploadResp.ok up fl := by
    by_cases hup : up.isEmpty = true <;>
      simp [upload_files, h0, hm, hup]
  have hfiles : (upload_files env ts (f0 :: rest) s).2.1.files = s1.files := by
    by_cases hup : up.isEmpty = true <;>
      simp [upload_files, h0, hm, hup, init_files]
  rw [hresp, hfiles]
  simp only [reportedSuccess]
  rcases hfind : (f0 :: rest).find? (matchesU ts u) with _ | g
  · rw [hfind] at htr
    have h2 : up.any (fun x => x.2 == u) = false := by simpa using htr.2
    rw [htr.1, h2]
    simp [hfresh]
  · rw [hfind] at htr
    have h2 : up.any (fun x => x.2 == u) =
        procSucceeds env s.vector_store.isSome g := by simpa using htr.2
    rw [htr.1, h2]

/-- Witness for the amended C10 at a concrete one-file upload. -/
theorem C10_witness :
    "doc_TS.pdf" ∈ (upload_files envOK "TS" [⟨"doc.pdf", true, true⟩]
        ⟨some (), some ⟨[]⟩, []⟩).2.1.files ↔
      reportedSuccess (upload_files envOK "TS" [⟨"doc.pdf", true, true⟩]
        ⟨some (), some ⟨[]⟩, []⟩).1 "doc_TS.pdf" = true :=
  C10_saved_iff_reported envOK "TS" "doc_TS.pdf" ⟨"doc.pdf", true, true⟩ []
    ⟨some (), some ⟨[]⟩, []⟩ (by decide) (by decide) (by decide) (by decide)
    (by decide)

/-! ### C8 — empty search query -/

/-- C8: a search request whose query is missing or whitespace-only
renders the prompt-for-valid-query page, and neither initialization nor
any search/store collaborator is invoked (the state is unchanged and
the call trace empty). -/
theorem C8_empty_query (env : Env) (queryField top_kField : Option String)
    (s : ServerState) (h : pyStrip (queryField.getD "") = "") :
    search env queryField top_kField s =
      (SearchResp.page "" "Please enter a valid query.", s, []) := by
  simp [search, h]

/-- Witness for C8 with a whitespace-only query. -/
theorem C8_witness :
    pyStrip ((some "   " : Option String).getD "") = "" ∧
    search envOK (some "   ") (some "3") (initialState ["a.pdf"]) =
      (SearchResp.page "" "Please enter a valid query.",
        initialState ["a.pdf"], []) :=
  ⟨by decide, C8_empty_query envOK (some "   ") (some "3")
    (initialState ["a.pdf"]) (by decide)⟩

/-! ### C9 — exceptions at the handler boundary -/

/-- C9, as stated, is false: the `/health` handler has no `try/except`,
so an exception raised by `os.listdir` propagates out of the handler
instead of being converted to an in-band response. -/
theorem C9_counterexample :
    health envNoListdir (initialState []) =
      Except.error "OSError raised by os.listdir" ∧
    (health envNoListdir (initialState [])).isOk = false :=
  ⟨rfl, rfl⟩

/-- C9 amended: the api handlers with a `try/except` convert exceptions
into in-band responses with an HTTP status — the status and document
listing turn a raising `os.listdir` into a 500 JSON error, a delete of
a missing plain file yields an in-band 404, and a delete whose
sanitized name is empty (so `os.remove` hits the upload folder and
raises) yields an in-band 500 — but `/health` has no handler boundary:
a raising `os.listdir` propagates to the framework. -/
theorem C9_health_propagates (env : Env) (s : ServerState) :
    (env.listdir_ok = false →
      search_system_status env s = StatusResp.err 500 ∧
      list_documents env s = ListResp.err 500 ∧
      health env s = Except.error "OSError raised by os.listdir") ∧
    (env.listdir_ok = true → (health env s).isOk = true) ∧
    (∀ name, secure_filename name ≠ "" → secure_filename name ∉ s.files →
      (delete_document env name s).1 = ApiResp.err 404 "Document not found") ∧
    (∀ name, secure_filename name = "" →
      (delete_document env name s).1 = ApiResp.err 500 "IsADirectoryError") := by
  refine ⟨fun h => ?_, fun h => ?_, fun name hne h => ?_, fun name he => ?_⟩
  · simp [search_system_status, list_documents, health, h]
  · simp [health, h, Except.isOk, Except.toBool]
  · rw [delete_missing env name s hne h]
  · rw [delete_empty env name s he]

/-- Witness for the amended C9 at a concrete raising environment. -/
theorem C9_witness :
    search_system_status envNoListdir (initialState []) = StatusResp.err 500 ∧
    health envNoListdir (initialState []) =
      Except.error "OSError raised by os.listdir" ∧
    (delete_document envOK "+++" (initialState [])).1 =
      ApiResp.err 500 "IsADirectoryError" :=
  have h := (C9_health_propagates envNoListdir (initialState [])).1 (by decide)
  have h2 := (C9_health_propagates envOK (initialState [])).2.2.2 "+++" (by decide)
  ⟨h.1, h.2.2, h2⟩

end RagApp
